import Mathlib

/-!
# Verification of the order/payment/provisioning flow of a Telegram VPN storefront bot

Shallow embedding of the repository's reconciliation flow (`app/bot.py`,
`app/payment/yookassa_pay.py`, `app/payment/mock.py`), the panel client
(`app/x3ui/client.py`), the link sanitizer (`app/utils.py`) and the data model
(`app/models.py`).  Time is modelled as natural-number seconds; each handler
invocation receives one clock value `now` (the source calls `datetime.utcnow()`
several times per handler, microseconds apart).  The payment gateway and the
panel's HTTP responses are modelled as explicit input functions, since they are
external-service boundaries.
-/

set_option maxHeartbeats 1000000

/-- Order status enum from `app/models.py` (`OrderStatus`). -/
inductive OStatus where
  | new
  | pending
  | paid
  | canceled
  | expired
deriving DecidableEq, Repr

/-- `users` table row (`app/models.py`, class `User`). -/
structure UserRow where
  id : Nat
  tgUserId : Nat
  createdAt : Nat
deriving DecidableEq, Repr

/-- `orders` table row (`app/models.py`, class `Order`). -/
structure OrderRow where
  id : Nat
  userId : Nat
  amount : Nat
  currency : String
  status : OStatus
  externalId : Option String
  paymentUrl : Option String
  createdAt : Nat
deriving DecidableEq, Repr

/-- `subscriptions` table row (`app/models.py`, class `Subscription`).
`config_qr_png_b64` is never written by the flows under study and is omitted. -/
structure SubRow where
  id : Nat
  userId : Nat
  inboundId : Nat
  xrayUuid : String
  expiresAt : Nat
  isActive : Bool
  createdAt : Nat
  configUrl : Option String
deriving DecidableEq, Repr

/-- The persistent store: the three tables of `app/db.py` / `app/models.py`. -/
structure DB where
  users : List UserRow
  orders : List OrderRow
  subs : List SubRow
deriving DecidableEq, Repr

/-- A tariff plan entry, from the `PLANS` list in `app/bot.py`. -/
structure Plan where
  code : String
  title : String
  days : Nat
  price : Nat
deriving DecidableEq, Repr

/-- `PLANS` from `app/bot.py`. -/
def PLANS : List Plan :=
  [⟨"m1", "Month", 30, 200⟩,
   ⟨"m3", "3 Months", 90, 500⟩,
   ⟨"m6", "6 Months", 180, 800⟩,
   ⟨"y1", "1 Year", 365, 1500⟩]

/-- `get_plan_by_code` from `app/bot.py`: first plan with the given code. -/
def get_plan_by_code (code : String) : Option Plan :=
  PLANS.find? (fun p => p.code == code)

/-- Split a composite `"code|paymentId"` string at the FIRST `'|'`, like
Python's `s.split("|", 1)`: returns the part before and, when a `'|'` is
present, the remainder after it. -/
def splitAtPipe : List Char → List Char × Option (List Char)
  | [] => ([], none)
  | c :: rest =>
    if c = '|' then ([], some rest)
    else
      let r := splitAtPipe rest
      (c :: r.1, r.2)

/-- Plan-code part of an `external_id` value:
`external_id.split("|", 1)[0]` when a pipe is present, else the whole string. -/
def planCodeOf (s : String) : String :=
  ⟨(splitAtPipe s.toList).1⟩

/-- Remote payment id part of an `external_id` value, as read at every trigger:
`external_id.split("|", 1)[1]` when `external_id` is non-null and contains
`'|'`, else `None`. -/
def pidOf : Option String → Option String
  | none => none
  | some s => ((splitAtPipe s.toList).2).map (fun l => ⟨l⟩)

/-- Plan-days resolution used by `/check`, the deep-link handler and the
auto-check task in `app/bot.py`: look the plan code up in `PLANS`, falling back
to `settings.plan_days`. -/
def planDaysOf (defaultDays : Nat) : Option String → Nat
  | none => defaultDays
  | some e =>
    match get_plan_by_code (planCodeOf e) with
    | some p => p.days
    | none => defaultDays

/-- The literal `plan_days_map = {"m1": 30, "m3": 90, "m6": 180, "y1": 365}`
lookup with default `settings.plan_days`, from `yk_success` in
`app/payment/yookassa_pay.py`. -/
def planDaysMapGet (defaultDays : Nat) : Option String → Nat
  | some "m1" => 30
  | some "m3" => 90
  | some "m6" => 180
  | some "y1" => 365
  | _ => defaultDays

/-- The configuration values the flows read (`app/config.py`). -/
structure Settings where
  planDays : Nat
  inboundId : Nat
deriving DecidableEq, Repr

/-- Per-invocation external inputs of a provisioning trigger: the clock, the
UUID generated by `uuid.uuid4()` inside `add_client`, and the resolved
configuration URL (`final_url or sub_url`, `None` when nothing resolved). -/
structure Env where
  now : Nat
  genUuid : String
  cfgUrl : Option String

/-- `select(Order).where(Order.id == oid)` / `scalar_one_or_none()`. -/
def findOrder (db : DB) (oid : Nat) : Option OrderRow :=
  db.orders.find? (fun o => o.id == oid)

/-- `select(User).where(User.tg_user_id == tg)` / `scalar_one_or_none()`. -/
def findUserByTg (db : DB) (tg : Nat) : Option UserRow :=
  db.users.find? (fun u => u.tgUserId == tg)

/-- Status of the order with the given id, if present. -/
def statusOf (db : DB) (oid : Nat) : Option OStatus :=
  (findOrder db oid).map (fun o => o.status)

/-- `order.status = st` followed by `commit()`: update the row with that id. -/
def setStatusList (l : List OrderRow) (k : Nat) (st : OStatus) : List OrderRow :=
  l.map (fun o => if o.id == k then { o with status := st } else o)

/-- Status update on the store. -/
def setOrderStatus (db : DB) (k : Nat) (st : OStatus) : DB :=
  { db with orders := setStatusList db.orders k st }

/-- Autoincrement primary key for `orders`. -/
def nextOrderId (db : DB) : Nat :=
  db.orders.foldr (fun o m => max o.id m) 0 + 1

/-- Autoincrement primary key for `users`. -/
def nextUserId (db : DB) : Nat :=
  db.users.foldr (fun u m => max u.id m) 0 + 1

/-- Autoincrement primary key for `subscriptions`. -/
def nextSubId (db : DB) : Nat :=
  db.subs.foldr (fun s m => max s.id m) 0 + 1

/-- The 10-minute idempotency guard query from `cmd_check`, the deep-link
handler and `_auto_check_and_activate` in `app/bot.py`:
`select(Subscription).join(User).where(User.tg_user_id == tg,
Subscription.created_at >= now - 10min, Subscription.is_active == True)`
followed by `.first()` being non-null.  `created_at >= now - 600` is written
additively as `now <= created_at + 600` to avoid truncated subtraction. -/
def hasRecentActiveSub (db : DB) (tg : Nat) (now : Nat) : Bool :=
  db.subs.any (fun s =>
    (db.users.any (fun u => u.tgUserId == tg && s.userId == u.id))
    && decide (now ≤ s.createdAt + 600)
    && s.isActive)

/-- `select(Order).join(User).where(User.tg_user_id == tg)
.order_by(Order.id.desc())` followed by `.first()`: the user's order with the
greatest id. -/
def latestOrder (db : DB) (tg : Nat) : Option OrderRow :=
  (db.orders.filter
    (fun o => db.users.any (fun u => u.id == o.userId && u.tgUserId == tg))).argmax
    (fun o => o.id)

/-- `ensure_user` from `app/bot.py`: select by chat id; when absent, issue an
`INSERT OR IGNORE` (a no-op when a row with that unique chat id exists) and
re-select.  Returns the updated store and the user row. -/
def ensure_user (db : DB) (tg : Nat) (now : Nat) : DB × UserRow :=
  match db.users.find? (fun u => u.tgUserId == tg) with
  | some u => (db, u)
  | none =>
    let fresh : UserRow := ⟨nextUserId db, tg, now⟩
    let db' : DB :=
      if db.users.any (fun u => u.tgUserId == tg) then db
      else { db with users := db.users ++ [fresh] }
    (db', (db'.users.find? (fun u => u.tgUserId == tg)).getD fresh)

/-- The uniform transition function the specification claims every
status-refresh trigger applies: `succeeded ↦ PAID`, `canceled ↦ CANCELED`,
anything else leaves the current status. -/
def refreshFn (cur : OStatus) (remoteStatus : Option String) : OStatus :=
  if remoteStatus = some "succeeded" then OStatus.paid
  else if remoteStatus = some "canceled" then OStatus.canceled
  else cur

/-- The shared provisioning tail of `cmd_check` and the deep-link handler in
`app/bot.py`: the 10-minute guard, `X3UIClient.add_client` (whose generated
UUID is `env.genUuid`), resolution of a configuration URL (`env.cfgUrl`), and
insertion of one `Subscription` row.  `ext` is the order's `external_id`, used
to determine the plan duration. -/
def provision (cfg : Settings) (env : Env) (db : DB) (tg : Nat)
    (ext : Option String) : DB :=
  if hasRecentActiveSub db tg env.now then db
  else
    match findUserByTg db tg with
    | none => db
    | some u =>
      { db with subs := db.subs ++
          [{ id := nextSubId db
             userId := u.id
             inboundId := cfg.inboundId
             xrayUuid := env.genUuid
             expiresAt := env.now + planDaysOf cfg.planDays ext * 86400
             isActive := true
             createdAt := env.now
             configUrl := env.cfgUrl }] }

/-- `cmd_check` from `app/bot.py` (the `/check` command): take the user's most
recent order; when it is not PAID, query the gateway by the remote payment id
and apply succeeded→PAID / canceled→CANCELED (any other result, a missing
payment id, or a gateway error leaves the order untouched and stops); when the
order is (now) PAID, run the guarded provisioning tail. -/
def cmd_check (cfg : Settings) (remote : String → Option String) (env : Env)
    (db : DB) (tg : Nat) : DB :=
  match latestOrder db tg with
  | none => db
  | some o =>
    if o.status = OStatus.paid then
      provision cfg env db tg o.externalId
    else
      match pidOf o.externalId with
      | none => db
      | some pid =>
        if remote pid = some "succeeded" then
          provision cfg env (setOrderStatus db o.id OStatus.paid) tg o.externalId
        else if remote pid = some "canceled" then
          setOrderStatus db o.id OStatus.canceled
        else db

/-- `_try_refresh_order_status` from `app/bot.py`: look the order up, extract
the remote payment id from the composite `external_id`, query the gateway, and
flip the status to PAID/CANCELED when the remote status is terminal and differs
from the stored one; returns the new status, `none` when nothing changed. -/
def tryRefresh (db : DB) (oid : Nat) (remote : String → Option String) :
    DB × Option OStatus :=
  match findOrder db oid with
  | none => (db, none)
  | some o =>
    match pidOf o.externalId with
    | none => (db, none)
    | some pid =>
      if remote pid = some "succeeded" then
        if o.status = OStatus.paid then (db, none)
        else (setOrderStatus db o.id OStatus.paid, some OStatus.paid)
      else if remote pid = some "canceled" then
        if o.status = OStatus.canceled then (db, none)
        else (setOrderStatus db o.id OStatus.canceled, some OStatus.canceled)
      else (db, none)

/-- The `/start paid_{order_id}` deep-link branch of `cmd_start` in
`app/bot.py`: `ensure_user`, then `_try_refresh_order_status`; when the refresh
did not return PAID, fall back to `cmd_check`; otherwise provision (with the
guard), the plan duration coming from the order re-read by id. -/
def deeplink_start (cfg : Settings) (remote : String → Option String)
    (env : Env) (db : DB) (tg : Nat) (oid : Nat) : DB :=
  let db0 := (ensure_user db tg env.now).1
  let tr := tryRefresh db0 oid remote
  if tr.2 = some OStatus.paid then
    provision cfg env tr.1 tg ((findOrder tr.1 oid).bind (fun o => o.externalId))
  else
    cmd_check cfg remote env tr.1 tg

/-- `yk_callback` from `app/payment/yookassa_pay.py` (the gateway webhook):
re-query the payment at the gateway; `oid` is the order id carried in the
payment's metadata and `remoteStatus` the gateway's reported status.
succeeded→PAID and canceled→CANCELED are applied unconditionally to the looked
up order; anything else (or an unknown order) changes nothing. -/
def yk_callback (db : DB) (oid : Nat) (remoteStatus : Option String) : DB :=
  match findOrder db oid with
  | none => db
  | some o =>
    if remoteStatus = some "succeeded" then setOrderStatus db o.id OStatus.paid
    else if remoteStatus = some "canceled" then setOrderStatus db o.id OStatus.canceled
    else db

/-- `yk_success` from `app/payment/yookassa_pay.py` (the payment-success HTTP
route): look the order up, extract the remote payment id, and when the gateway
reports `succeeded`, mark the order PAID (when not already) and create a
`Subscription` row; note that, unlike the other provisioning triggers, NO
recent-subscription guard is performed before provisioning. -/
def yk_success (cfg : Settings) (remote : String → Option String) (env : Env)
    (db : DB) (oid : Nat) : DB :=
  match findOrder db oid with
  | none => db
  | some o =>
    let statusOk : Bool :=
      match pidOf o.externalId with
      | some pid => decide (remote pid = some "succeeded")
      | none => false
    if statusOk then
      let db1 := if o.status = OStatus.paid then db else setOrderStatus db o.id OStatus.paid
      { db1 with subs := db1.subs ++
          [{ id := nextSubId db1
             userId := o.userId
             inboundId := cfg.inboundId
             xrayUuid := env.genUuid
             expiresAt := env.now + planDaysMapGet cfg.planDays (o.externalId.map planCodeOf) * 86400
             isActive := true
             createdAt := env.now
             configUrl := env.cfgUrl }] }
    else db

/-- `mock_pay` from `app/payment/mock.py`: mark an existing order PAID. -/
def mock_pay (db : DB) (oid : Nat) : DB :=
  match findOrder db oid with
  | none => db
  | some o => setOrderStatus db o.id OStatus.paid

/-- Per-attempt external inputs of the background auto-check task: the gateway
response map, the clock, the generated UUID and the resolved link. -/
structure PollEnv where
  remote : String → Option String
  now : Nat
  genUuid : String
  cfgUrl : Option String

/-- The provisioning tail of `_auto_check_and_activate` in `app/bot.py`:
re-read user and order (give up silently when either is missing), run the
10-minute guard, then create the client and persist one `Subscription` row. -/
def autoProvision (cfg : Settings) (e : PollEnv) (db : DB) (tg oid : Nat) : DB :=
  match findUserByTg db tg, findOrder db oid with
  | some u, some o =>
    if hasRecentActiveSub db tg e.now then db
    else
      { db with subs := db.subs ++
          [{ id := nextSubId db
             userId := u.id
             inboundId := cfg.inboundId
             xrayUuid := e.genUuid
             expiresAt := e.now + planDaysOf cfg.planDays o.externalId * 86400
             isActive := true
             createdAt := e.now
             configUrl := e.cfgUrl }] }
  | _, _ => db

/-- The retry loop body of `_auto_check_and_activate`: each iteration sleeps
180 s, refreshes the order's status, and terminates the task on a terminal
result (provisioning on PAID); otherwise the next iteration runs.  Returns the
store and the number of status-poll attempts performed. -/
def autoCheckLoop (cfg : Settings) (tg oid : Nat) :
    List PollEnv → DB → DB × Nat
  | [], db => (db, 0)
  | e :: rest, db =>
    let tr := tryRefresh db oid e.remote
    match tr.2 with
    | some OStatus.paid => (autoProvision cfg e tr.1 tg oid, 1)
    | some OStatus.canceled => (tr.1, 1)
    | _ =>
      let r := autoCheckLoop cfg tg oid rest tr.1
      (r.1, r.2 + 1)

/-- `_auto_check_and_activate` from `app/bot.py`: `for attempt in range(3)`
over the loop body — at most three poll attempts regardless of how many
per-attempt environments the outside world could supply. -/
def auto_check_and_activate (cfg : Settings) (tg oid : Nat)
    (envs : List PollEnv) (db : DB) : DB × Nat :=
  autoCheckLoop cfg tg oid (envs.take 3) db

/-- `cb_plan_choose` from `app/bot.py`: `ensure_user`, create a PENDING order
for the chosen plan with `external_id = code`, then (when the gateway payment
was created, `payRes = some (paymentId, payUrl)`) store the payment URL and the
composite `"code|paymentId"` on the order. -/
def cb_plan_choose (db : DB) (tg : Nat) (code : String) (now : Nat)
    (payRes : Option (String × Option String)) : DB :=
  match get_plan_by_code code with
  | none => db
  | some p =>
    let du := ensure_user db tg now
    let db1 := du.1
    let oid := nextOrderId db1
    let db2 : DB := { db1 with orders := db1.orders ++
        [{ id := oid, userId := du.2.id, amount := p.price, currency := "RUB"
           status := OStatus.pending, externalId := some code
           paymentUrl := none, createdAt := now }] }
    match payRes with
    | none => db2
    | some (pid, url) =>
      { db2 with orders := db2.orders.map (fun o =>
          if o.id == oid then
            { o with paymentUrl := url, externalId := some (code ++ "|" ++ pid) }
          else o) }

/-- One externally triggered handler invocation, with its external inputs. -/
inductive Trigger where
  | webhook (oid : Nat) (remoteStatus : Option String)
  | check (tg : Nat) (remote : String → Option String) (env : Env)
  | deeplink (tg oid : Nat) (remote : String → Option String) (env : Env)
  | auto (tg oid : Nat) (envs : List PollEnv)
  | successRoute (oid : Nat) (remote : String → Option String) (env : Env)
  | mockPay (oid : Nat)
  | planChoose (tg : Nat) (code : String) (now : Nat)
      (payRes : Option (String × Option String))

/-- Dispatch one trigger invocation on the store. -/
def step (cfg : Settings) : Trigger → DB → DB
  | .webhook oid r, db => yk_callback db oid r
  | .check tg remote env, db => cmd_check cfg remote env db tg
  | .deeplink tg oid remote env, db => deeplink_start cfg remote env db tg oid
  | .auto tg oid envs, db => (auto_check_and_activate cfg tg oid envs db).1
  | .successRoute oid remote env, db => yk_success cfg remote env db oid
  | .mockPay oid, db => mock_pay db oid
  | .planChoose tg code now payRes, db => cb_plan_choose db tg code now payRes

/-- A sequence of trigger invocations. -/
def steps (cfg : Settings) (ts : List Trigger) (db : DB) : DB :=
  ts.foldl (fun d t => step cfg t d) db

/-!
## Panel Client (`app/x3ui/client.py`, `X3UIClient.add_client`)

HTTP responses are modelled by their status code, their text body and the
result of `resp.json()` (`none` when the body does not parse).  A responder
maps each request — endpoint path, payload-variant name (`v1` / `v2_obj` /
`v2_str`) and body encoding (first JSON post, raw-JSON retry, form retry) — to
a response or to a raised transport exception.  The payload bodies themselves
are opaque to `add_client`'s control flow (it branches only on responses), so
they are not reconstructed here.
-/

/-- A JSON value, for the parsed response bodies the client inspects. -/
inductive Json where
  | null
  | bool (b : Bool)
  | num (n : Int)
  | str (s : String)
  | arr (xs : List Json)
  | obj (fields : List (String × Json))

/-- Python `data.get(key)` on a parsed JSON value: field lookup on a dict,
`None` on anything else. -/
def Json.get : Json → String → Option Json
  | Json.obj fs, k => (fs.find? (fun kv => kv.1 == k)).map (fun kv => kv.2)
  | _, _ => none

/-- Does the pattern occur at the head of the list? -/
def firstChunkEq : List Char → List Char → Bool
  | [], _ => true
  | _ :: _, [] => false
  | a :: as, b :: bs => a == b && firstChunkEq as bs

/-- Substring containment on character lists. -/
def hasChunk (pat : List Char) : List Char → Bool
  | [] => firstChunkEq pat []
  | c :: rest => firstChunkEq pat (c :: rest) || hasChunk pat rest

/-- `value is True` on an optional JSON field. -/
def isTrueVal : Option Json → Bool
  | some (Json.bool true) => true
  | _ => false

/-- Python `value == 0` on an optional JSON field (`False == 0` holds in
Python, `None == 0` does not). -/
def zeroVal : Option Json → Bool
  | some (Json.num 0) => true
  | some (Json.bool false) => true
  | _ => false

/-- `str(value).lower()` for the scalar JSON values; containers stringify to
bracketed reprs that can never equal `"success"`/`"ok"` and are abbreviated. -/
def pyStrLower : Json → String
  | Json.str s => String.mk (s.toList.map Char.toLower)
  | Json.bool true => "true"
  | Json.bool false => "false"
  | Json.num n => toString n
  | Json.null => "none"
  | Json.arr _ => "<list>"
  | Json.obj _ => "<dict>"

/-- The success test on a parsed `add_client` response body (client.py
251-260): `success is True`, `ok is True`, `str(status).lower() in
("success", "ok")`, or `code == 0`.  On a non-dict value every lookup yields
`None`, matching the `isinstance(data, dict)` guard. -/
def isSuccessResp (data : Json) : Bool :=
  isTrueVal (data.get "success") || isTrueVal (data.get "ok")
  || (match data.get "status" with
      | some v => pyStrLower v == "success" || pyStrLower v == "ok"
      | none => false)
  || zeroVal (data.get "code")

/-- The link-bearing keys probed on a success response (client.py 262). -/
def linkKeys : List String :=
  ["link", "url", "config", "configUrl", "vless", "vmess", "trojan"]

/-- String values of the link keys of a JSON dict, in key order. -/
def strVals (j : Json) : List String :=
  linkKeys.filterMap (fun k =>
    match j.get k with
    | some (Json.str s) => some s
    | _ => none)

/-- The container keys probed for nested link fields (client.py 266). -/
def containerKeys : List String := ["obj", "data", "result", "client"]

/-- Link candidates below one container key: a dict contributes its link-key
string values, a list the values of its dict items. -/
def containerVals (data : Json) (k : String) : List String :=
  match data.get k with
  | some (Json.obj fs) => strVals (Json.obj fs)
  | some (Json.arr xs) =>
    (xs.map (fun it =>
      match it with
      | Json.obj _ => strVals it
      | _ => [])).flatten
  | _ => []

/-- All link candidates of a response body, in probing order. -/
def candidateLinks (data : Json) : List String :=
  strVals data ++ (containerKeys.map (containerVals data)).flatten

/-- A candidate counts as a config link when it starts with a known scheme. -/
def isProtoLink (s : String) : Bool :=
  firstChunkEq "vless://".toList s.toList || firstChunkEq "vmess://".toList s.toList
    || firstChunkEq "trojan://".toList s.toList

/-- `config_url`: the first candidate with a known scheme (client.py 280). -/
def extractLink (data : Json) : Option String :=
  (candidateLinks data).find? isProtoLink

/-- Python `str.strip()` whitespace. -/
def isPySpace (c : Char) : Bool :=
  c == ' ' || c == '\t' || c == '\n' || c == '\r' || c == '\x0b' || c == '\x0c'

/-- `"unexpected end of json input" in body.lower()` (client.py 207). -/
def hasUEOJ (s : String) : Bool :=
  hasChunk "unexpected end of json input".toList (s.toList.map Char.toLower)

/-- `not body or body.strip() == ""` (client.py 223). -/
def isBlankBody (s : String) : Bool :=
  s == "" || s.toList.all isPySpace

/-- Body encoding of one request attempt: the initial JSON post, the raw-JSON
retry after an "unexpected end of json input" body, or the form-encoded retry
after an empty body. -/
inductive Enc where
  | jsonBody
  | rawJson
  | form
deriving DecidableEq, Repr

/-- One HTTP request `add_client` can issue. -/
structure Req where
  endp : String
  payloadName : String
  enc : Enc
deriving DecidableEq, Repr

/-- One HTTP response: status code, text body, and `resp.json()` result. -/
structure HttpResp where
  status : Nat
  body : String
  json : Option Json

/-- A request either yields a response or raises a transport exception. -/
inductive HttpOutcome where
  | ok (r : HttpResp)
  | exn

/-- Status code view of an outcome (`none` when the request raised). -/
def outcomeStatus : HttpOutcome → Option Nat
  | HttpOutcome.ok r => some r.status
  | HttpOutcome.exn => none

/-- The seen-set de-duplication loop of `_candidates` (client.py 52-58):
keep first occurrences. -/
def dedupAux (seen : List String) : List String → List String
  | [] => []
  | x :: xs =>
    if seen.contains x then dedupAux seen xs
    else x :: dedupAux (seen ++ [x]) xs

/-- De-duplication preserving first occurrences (client.py 52-58). -/
def dedupKeepFirst (l : List String) : List String :=
  dedupAux [] l

/-- `X3UIClient._candidates`: each subpath with and without the configured
base-path segment, leading slashes normalised, first occurrences kept. -/
def candidatePaths (basePath : String) (subpaths : List String) : List String :=
  let prefs := if basePath != "" then ["", basePath] else [""]
  dedupKeepFirst ((prefs.map (fun pre =>
    subpaths.map (fun sp =>
      let spClean : String := ⟨sp.toList.dropWhile (fun c => c == '/')⟩
      if pre != "" then "/" ++ pre ++ "/" ++ spClean else "/" ++ spClean))).flatten)

/-- The candidate `addClient` endpoint subpaths (client.py 140-145). -/
def addClientSubpaths : List String :=
  ["panel/api/inbounds/addClient", "api/inbounds/addClient",
   "panel/inbound/addClient", "xui/inbound/addClient"]

/-- The payload-variant names, in attempt order (client.py 147-188). -/
def payloadNames : List String := ["v1", "v2_obj", "v2_str"]

/-- The endpoint × payload attempt matrix, endpoints outermost. -/
def addClientAttempts (basePath : String) : List (String × String) :=
  ((candidatePaths basePath addClientSubpaths).map (fun ep =>
    payloadNames.map (fun pn => (ep, pn)))).flatten

/-- The two in-attempt retries (client.py 207-242): after an HTTP 200 whose
body mentions "unexpected end of json input", re-post the raw JSON body; after
an HTTP 200 whose body is blank, re-post form-encoded.  A retry that raises
keeps the previous response. -/
def retriedResp (respond : Req → HttpOutcome) (ep pn : String)
    (r0 : HttpResp) : HttpResp :=
  let r1 :=
    if r0.status == 200 && r0.body != "" && hasUEOJ r0.body then
      match respond ⟨ep, pn, Enc.rawJson⟩ with
      | HttpOutcome.ok r => r
      | HttpOutcome.exn => r0
    else r0
  if r1.status == 200 && isBlankBody r1.body then
    match respond ⟨ep, pn, Enc.form⟩ with
    | HttpOutcome.ok r => r
    | HttpOutcome.exn => r1
  else r1

/-- One endpoint/payload attempt (client.py 192-299): `some cfg` when the final
response is HTTP 200 with a JSON body passing the success test (`cfg` the
extracted link), `none` when the attempt fails — including a non-200 status, an
unparsable or failure-indicating body, or a raised exception. -/
def attemptOutcome (respond : Req → HttpOutcome) (ep pn : String) :
    Option (Option String) :=
  match respond ⟨ep, pn, Enc.jsonBody⟩ with
  | HttpOutcome.exn => none
  | HttpOutcome.ok r0 =>
    let r := retriedResp respond ep pn r0
    if r.status == 200 then
      match r.json with
      | some data => if isSuccessResp data then some (extractLink data) else none
      | none => none
    else none

/-- `X3UICreateClientResult` (client.py 14-18). -/
structure CreateResult where
  uuid : String
  note : String
  config_url : Option String
deriving DecidableEq, Repr

/-- The attempt loop: stop at the first successful attempt.  Also returns the
number of attempts tried. -/
def runAttempts (respond : Req → HttpOutcome) :
    List (String × String) → Option (Option String) × Nat
  | [] => (none, 0)
  | a :: rest =>
    match attemptOutcome respond a.1 a.2 with
    | some cfg => (some cfg, 1)
    | none =>
      let r := runAttempts respond rest
      (r.1, r.2 + 1)

/-- `X3UIClient.add_client`: run the attempt matrix; on the first success
return the generated UUID, the note and the extracted link; when every attempt
fails, return the generated UUID with no config URL (client.py 301-303) — the
function is total, it never raises.  The UUID generated by `uuid.uuid4()` is
the input `genUuid`.  Also returns the number of attempts tried. -/
def add_client (respond : Req → HttpOutcome) (basePath genUuid email : String) :
    CreateResult × Nat :=
  let r := runAttempts respond (addClientAttempts basePath)
  match r.1 with
  | some cfg => ({ uuid := genUuid, note := email, config_url := cfg }, r.2)
  | none => ({ uuid := genUuid, note := email, config_url := none }, r.2)

/-!
## Config-link sanitizer (`app/utils.py`, `sanitize_config_link`)

The fragment of a URL is everything after the first `'#'` (as `urlsplit`
takes it); the sanitizer percent-decodes it, cuts it at the first hyphen that
is followed by a digit (the regex `^(.*?)(?:-\d.*)$` with a non-greedy head
group), strips surrounding whitespace and re-quotes with `safe="-._~"`.
Fragments are taken newline-free and ASCII, as produced by the panel. -/

/-- Is the first character a decimal digit? -/
def headIsDigit : List Char → Bool
  | [] => false
  | d :: _ => d.isDigit

/-- Cut at the first hyphen-followed-by-digit: the regex
`^(.*?)(?:-\d.*)$` keeps the shortest head group, the whole string when the
pattern never matches. -/
def stripTail : List Char → List Char
  | [] => []
  | c :: rest =>
    if c == '-' && headIsDigit rest then []
    else c :: stripTail rest

/-- Does a hyphen-followed-by-digit occur anywhere? -/
def hasHyphenDigit : List Char → Bool
  | [] => false
  | c :: rest => (c == '-' && headIsDigit rest) || hasHyphenDigit rest

/-- Value of a hexadecimal digit character. -/
def hexVal (c : Char) : Option Nat :=
  if c.isDigit then some (c.toNat - 48)
  else if 'a' ≤ c ∧ c ≤ 'f' then some (c.toNat - 87)
  else if 'A' ≤ c ∧ c ≤ 'F' then some (c.toNat - 55)
  else none

/-- `urllib.parse.unquote`: decode `%XX` escapes, leaving malformed escapes
and other characters as they are. -/
def pdAux : Nat → List Char → List Char
  | 0, l => l
  | _ + 1, [] => []
  | fuel + 1, c :: rest =>
    if c = '%' then
      match rest with
      | h1 :: h2 :: rest2 =>
        match hexVal h1, hexVal h2 with
        | some a, some b => Char.ofNat (16 * a + b) :: pdAux fuel rest2
        | _, _ => c :: pdAux fuel rest
      | _ => c :: pdAux fuel rest
    else c :: pdAux fuel rest

/-- `urllib.parse.unquote`: decode `%XX` escapes, leaving malformed escapes
and other characters as they are (each step consumes at least one character,
so the length of the input bounds the steps needed). -/
def percentDecodeChars (l : List Char) : List Char :=
  pdAux l.length l

/-- The characters `quote` leaves unescaped with `safe="-._~"`: ASCII
alphanumerics and `_.-~`. -/
def isQuoteSafe (c : Char) : Bool :=
  c.isAlpha || c.isDigit || c == '-' || c == '.' || c == '_' || c == '~'

/-- Uppercase hexadecimal digit. -/
def toHexDigit (n : Nat) : Char :=
  if n < 10 then Char.ofNat (48 + n) else Char.ofNat (55 + n)

/-- `urllib.parse.quote(s, safe="-._~")` on ASCII text. -/
def percentEncodeChars : List Char → List Char
  | [] => []
  | c :: rest =>
    if isQuoteSafe c then c :: percentEncodeChars rest
    else '%' :: toHexDigit (c.toNat / 16 % 16) :: toHexDigit (c.toNat % 16)
      :: percentEncodeChars rest

/-- Strip whitespace from both ends. -/
def stripBoth (l : List Char) : List Char :=
  ((l.dropWhile isPySpace).reverse.dropWhile isPySpace).reverse

/-- The fragment pipeline of `sanitize_config_link` (utils.py 15-22):
unquote, cut the analytics suffix, strip spaces, re-quote. -/
def sanitizeFragment (frag : String) : String :=
  ⟨percentEncodeChars (stripBoth (stripTail (percentDecodeChars frag.toList)))⟩

/-- Split a URL at the first `'#'`: the part before, and the fragment when a
`'#'` is present. -/
def splitAtHash : List Char → List Char × Option (List Char)
  | [] => ([], none)
  | c :: rest =>
    if c = '#' then ([], some rest)
    else
      let r := splitAtHash rest
      (c :: r.1, r.2)

/-- `sanitize_config_link` from `app/utils.py` on a string link: a link with
no (or an empty) fragment is returned unchanged; otherwise the URL is rebuilt
with the sanitized fragment.  (The Python function also passes `None` and
non-string values through unchanged.) -/
def sanitize_config_link (url : String) : String :=
  let sp := splitAtHash url.toList
  match sp.2 with
  | none => url
  | some frag =>
    if frag = [] then url
    else String.mk sp.1 ++ "#" ++ sanitizeFragment (String.mk frag)

/-!
## Derived notions used in the statements below
-/

/-- Number of `users` rows carrying a given chat-account id. -/
def countTg (db : DB) (tg : Nat) : Nat :=
  db.users.countP (fun u => u.tgUserId == tg)

/-- Iterate `ensure_user` for the same chat id and clock. -/
def ensureUserIter (tg now : Nat) : Nat → DB → DB
  | 0, db => db
  | k + 1, db => ensureUserIter tg now k (ensure_user db tg now).1

/-- Does the order belong to the user with the given chat id (the join
predicate of the `/check` order query)? -/
def ownedBy (db : DB) (tg : Nat) (o : OrderRow) : Bool :=
  db.users.any (fun u => u.id == o.userId && u.tgUserId == tg)

/-- Between two stores, the status of every order present in the first either
is unchanged or has been written to a terminal value (PAID or CANCELED). -/
def StatusMono (db db' : DB) : Prop :=
  ∀ oid st, statusOf db oid = some st →
    statusOf db' oid = some st ∨ statusOf db' oid = some OStatus.paid
      ∨ statusOf db' oid = some OStatus.canceled

/-!
## Supporting lemmas
-/

theorem id_of_statusUpd (o : OrderRow) (k : Nat) (st : OStatus) :
    (if o.id == k then { o with status := st } else o).id = o.id := by
  split <;> rfl

theorem find?_map_keepId (g : OrderRow → OrderRow)
    (hid : ∀ o, (g o).id = o.id) (oid : Nat) :
    ∀ l : List OrderRow,
      (l.map g).find? (fun o => o.id == oid)
        = (l.find? (fun o => o.id == oid)).map g := by
  intro l
  induction l with
  | nil => rfl
  | cons a l ih =>
    rw [List.map_cons, List.find?_cons, List.find?_cons]
    have hga : ((g a).id == oid) = (a.id == oid) := by rw [hid]
    rw [hga]
    cases h : (a.id == oid) with
    | true => rfl
    | false => simpa using ih

theorem findOrder_setOrderStatus (db : DB) (k : Nat) (st : OStatus) (oid : Nat) :
    findOrder (setOrderStatus db k st) oid
      = (findOrder db oid).map (fun o => if o.id == k then { o with status := st } else o) := by
  unfold findOrder setOrderStatus setStatusList
  exact find?_map_keepId _ (fun o => id_of_statusUpd o k st) oid db.orders

theorem statusOf_setOrderStatus (db : DB) (k : Nat) (st : OStatus) (oid : Nat) :
    statusOf (setOrderStatus db k st) oid = statusOf db oid
    ∨ statusOf (setOrderStatus db k st) oid = some st := by
  unfold statusOf
  rw [findOrder_setOrderStatus]
  cases h : findOrder db oid with
  | none => left; rfl
  | some o =>
    by_cases hk : o.id = k
    · right; simp [hk]
    · left; simp [hk]

theorem statusOf_setOrderStatus_self (db : DB) (k : Nat) (st : OStatus)
    (o : OrderRow) (h : findOrder db k = some o) :
    statusOf (setOrderStatus db k st) k = some st := by
  have hp : o.id = k := by simpa using List.find?_some h
  unfold statusOf
  rw [findOrder_setOrderStatus, h]
  simp [hp]

theorem setOrderStatus_users (db : DB) (k : Nat) (st : OStatus) :
    (setOrderStatus db k st).users = db.users := rfl

theorem setOrderStatus_subs (db : DB) (k : Nat) (st : OStatus) :
    (setOrderStatus db k st).subs = db.subs := rfl

theorem provision_orders (cfg : Settings) (env : Env) (db : DB) (tg : Nat)
    (ext : Option String) : (provision cfg env db tg ext).orders = db.orders := by
  unfold provision
  split
  · rfl
  · split <;> rfl

theorem provision_users (cfg : Settings) (env : Env) (db : DB) (tg : Nat)
    (ext : Option String) : (provision cfg env db tg ext).users = db.users := by
  unfold provision
  split
  · rfl
  · split <;> rfl

theorem autoProvision_orders (cfg : Settings) (e : PollEnv) (db : DB) (tg oid : Nat) :
    (autoProvision cfg e db tg oid).orders = db.orders := by
  unfold autoProvision
  split
  · split <;> rfl
  · rfl

theorem ensure_user_orders (db : DB) (tg now : Nat) :
    (ensure_user db tg now).1.orders = db.orders := by
  unfold ensure_user
  split
  · rfl
  · dsimp only
    split <;> rfl

theorem ensure_user_subs (db : DB) (tg now : Nat) :
    (ensure_user db tg now).1.subs = db.subs := by
  unfold ensure_user
  split
  · rfl
  · dsimp only
    split <;> rfl

theorem tryRefresh_users (db : DB) (oid : Nat) (remote : String → Option String) :
    (tryRefresh db oid remote).1.users = db.users := by
  unfold tryRefresh
  split
  · rfl
  · split
    · rfl
    · split
      · split <;> rfl
      · split
        · split <;> rfl
        · rfl

theorem tryRefresh_subs (db : DB) (oid : Nat) (remote : String → Option String) :
    (tryRefresh db oid remote).1.subs = db.subs := by
  unfold tryRefresh
  split
  · rfl
  · split
    · rfl
    · split
      · split <;> rfl
      · split
        · split <;> rfl
        · rfl

theorem tryRefresh_none (db : DB) (oid : Nat) (remote : String → Option String)
    (h : (tryRefresh db oid remote).2 = none) :
    (tryRefresh db oid remote).1 = db := by
  unfold tryRefresh at h ⊢
  cases hf : findOrder db oid with
  | none => simp [hf]
  | some o =>
    cases hp : pidOf o.externalId with
    | none => simp [hf, hp]
    | some pid =>
      by_cases hs : remote pid = some "succeeded"
      · by_cases hpaid : o.status = OStatus.paid
        · simp [hf, hp, hs, hpaid]
        · simp [hf, hp, hs, hpaid] at h
      · by_cases hc : remote pid = some "canceled"
        · by_cases hcan : o.status = OStatus.canceled
          · simp [hf, hp, hs, hc, hcan]
          · simp [hf, hp, hs, hc, hcan] at h
        · simp [hf, hp, hs, hc]

theorem statusMono_refl (db : DB) : StatusMono db db := fun _ _ h => Or.inl h

theorem statusMono_trans {a b c : DB} (h1 : StatusMono a b) (h2 : StatusMono b c) :
    StatusMono a c := by
  intro oid st h
  rcases h1 oid st h with h' | h' | h'
  · exact h2 oid st h'
  · rcases h2 oid OStatus.paid h' with h'' | h'' | h''
    · right; left; exact h''
    · right; left; exact h''
    · right; right; exact h''
  · rcases h2 oid OStatus.canceled h' with h'' | h'' | h''
    · right; right; exact h''
    · right; left; exact h''
    · right; right; exact h''

theorem statusMono_of_orders_eq {db db' : DB} (h : db'.orders = db.orders) :
    StatusMono db db' := by
  intro oid st hs
  left
  unfold statusOf findOrder at hs ⊢
  rw [h]
  exact hs

theorem statusMono_setOrderStatus (db : DB) (k : Nat) (st : OStatus)
    (hst : st = OStatus.paid ∨ st = OStatus.canceled) :
    StatusMono db (setOrderStatus db k st) := by
  intro oid s hs
  rcases statusOf_setOrderStatus db k st oid with h | h
  · left; rw [h]; exact hs
  · rcases hst with rfl | rfl
    · right; left; exact h
    · right; right; exact h

theorem statusMono_append_orders (db : DB) (l' : List OrderRow) :
    StatusMono db { db with orders := db.orders ++ l' } := by
  intro oid st hs
  left
  unfold statusOf findOrder at hs ⊢
  show (List.find? (fun o => o.id == oid) (db.orders ++ l')).map (fun o => o.status) = some st
  rw [List.find?_append]
  cases hf : db.orders.find? (fun o => o.id == oid) with
  | none => rw [hf] at hs; exact absurd hs (by simp)
  | some o => rw [hf] at hs; simpa using hs

theorem statusMono_map_keepIdStatus (db : DB) (g : OrderRow → OrderRow)
    (hid : ∀ o, (g o).id = o.id) (hst : ∀ o, (g o).status = o.status) :
    StatusMono db { db with orders := db.orders.map g } := by
  intro oid st hs
  left
  unfold statusOf findOrder at hs ⊢
  show (List.find? (fun o => o.id == oid) (db.orders.map g)).map (fun o => o.status) = some st
  rw [find?_map_keepId g hid oid]
  cases hf : db.orders.find? (fun o => o.id == oid) with
  | none => rw [hf] at hs; exact absurd hs (by simp)
  | some o => rw [hf] at hs; simpa [hst o] using hs

theorem statusMono_tryRefresh (db : DB) (oid : Nat) (remote : String → Option String) :
    StatusMono db (tryRefresh db oid remote).1 := by
  unfold tryRefresh
  cases hf : findOrder db oid with
  | none => exact statusMono_refl db
  | some o =>
    dsimp only
    cases hp : pidOf o.externalId with
    | none => exact statusMono_refl db
    | some pid =>
      dsimp only
      by_cases hs : remote pid = some "succeeded"
      · rw [if_pos hs]
        by_cases hpaid : o.status = OStatus.paid
        · rw [if_pos hpaid]; exact statusMono_refl db
        · rw [if_neg hpaid]
          exact statusMono_setOrderStatus db o.id OStatus.paid (Or.inl rfl)
      · rw [if_neg hs]
        by_cases hc : remote pid = some "canceled"
        · rw [if_pos hc]
          by_cases hcan : o.status = OStatus.canceled
          · rw [if_pos hcan]; exact statusMono_refl db
          · rw [if_neg hcan]
            exact statusMono_setOrderStatus db o.id OStatus.canceled (Or.inr rfl)
        · rw [if_neg hc]; exact statusMono_refl db

theorem statusMono_provision (cfg : Settings) (env : Env) (db : DB) (tg : Nat)
    (ext : Option String) : StatusMono db (provision cfg env db tg ext) :=
  statusMono_of_orders_eq (provision_orders cfg env db tg ext)

theorem statusMono_cmd_check (cfg : Settings) (remote : String → Option String)
    (env : Env) (db : DB) (tg : Nat) :
    StatusMono db (cmd_check cfg remote env db tg) := by
  unfold cmd_check
  cases hl : latestOrder db tg with
  | none => exact statusMono_refl db
  | some o =>
    dsimp only
    by_cases hp : o.status = OStatus.paid
    · rw [if_pos hp]; exact statusMono_provision cfg env db tg o.externalId
    · rw [if_neg hp]
      split
      · exact statusMono_refl db
      · split
        · exact statusMono_trans
            (statusMono_setOrderStatus db o.id OStatus.paid (Or.inl rfl))
            (statusMono_provision cfg env _ tg o.externalId)
        · split
          · exact statusMono_setOrderStatus db o.id OStatus.canceled (Or.inr rfl)
          · exact statusMono_refl db

theorem statusMono_ensure_user (db : DB) (tg now : Nat) :
    StatusMono db (ensure_user db tg now).1 :=
  statusMono_of_orders_eq (ensure_user_orders db tg now)

theorem statusMono_deeplink (cfg : Settings) (remote : String → Option String)
    (env : Env) (db : DB) (tg oid : Nat) :
    StatusMono db (deeplink_start cfg remote env db tg oid) := by
  unfold deeplink_start
  dsimp only
  by_cases h : (tryRefresh (ensure_user db tg env.now).1 oid remote).2 = some OStatus.paid
  · rw [if_pos h]
    exact statusMono_trans
      (statusMono_trans (statusMono_ensure_user db tg env.now)
        (statusMono_tryRefresh _ oid remote))
      (statusMono_provision cfg env _ tg _)
  · rw [if_neg h]
    exact statusMono_trans
      (statusMono_trans (statusMono_ensure_user db tg env.now)
        (statusMono_tryRefresh _ oid remote))
      (statusMono_cmd_check cfg remote env _ tg)

theorem statusMono_autoProvision (cfg : Settings) (e : PollEnv) (db : DB)
    (tg oid : Nat) : StatusMono db (autoProvision cfg e db tg oid) :=
  statusMono_of_orders_eq (autoProvision_orders cfg e db tg oid)

theorem statusMono_autoCheckLoop (cfg : Settings) (tg oid : Nat) :
    ∀ (envs : List PollEnv) (db : DB),
      StatusMono db (autoCheckLoop cfg tg oid envs db).1 := by
  intro envs
  induction envs with
  | nil => intro db; exact statusMono_refl db
  | cons e rest ih =>
    intro db
    unfold autoCheckLoop
    dsimp only
    cases h : (tryRefresh db oid e.remote).2 with
    | none =>
      exact statusMono_trans (statusMono_tryRefresh db oid e.remote) (ih _)
    | some s =>
      cases s with
      | paid =>
        exact statusMono_trans (statusMono_tryRefresh db oid e.remote)
          (statusMono_autoProvision cfg e _ tg oid)
      | canceled => exact statusMono_tryRefresh db oid e.remote
      | new =>
        exact statusMono_trans (statusMono_tryRefresh db oid e.remote) (ih _)
      | pending =>
        exact statusMono_trans (statusMono_tryRefresh db oid e.remote) (ih _)
      | expired =>
        exact statusMono_trans (statusMono_tryRefresh db oid e.remote) (ih _)

theorem statusMono_yk_success (cfg : Settings) (remote : String → Option String)
    (env : Env) (db : DB) (oid : Nat) :
    StatusMono db (yk_success cfg remote env db oid) := by
  unfold yk_success
  cases hf : findOrder db oid with
  | none => exact statusMono_refl db
  | some o =>
    dsimp only
    split
    · by_cases hpaid : o.status = OStatus.paid
      · rw [if_pos hpaid]
        exact statusMono_of_orders_eq rfl
      · rw [if_neg hpaid]
        exact statusMono_trans
          (statusMono_setOrderStatus db o.id OStatus.paid (Or.inl rfl))
          (statusMono_of_orders_eq rfl)
    · exact statusMono_refl db

theorem statusMono_mock (db : DB) (oid : Nat) : StatusMono db (mock_pay db oid) := by
  unfold mock_pay
  cases hf : findOrder db oid with
  | none => exact statusMono_refl db
  | some o => exact statusMono_setOrderStatus db o.id OStatus.paid (Or.inl rfl)

theorem statusMono_planChoose (db : DB) (tg : Nat) (code : String) (now : Nat)
    (payRes : Option (String × Option String)) :
    StatusMono db (cb_plan_choose db tg code now payRes) := by
  unfold cb_plan_choose
  cases get_plan_by_code code with
  | none => exact statusMono_refl db
  | some p =>
    dsimp only
    cases payRes with
    | none =>
      exact statusMono_trans (statusMono_ensure_user db tg now)
        (statusMono_append_orders _ _)
    | some pr =>
      cases pr with
      | mk pid url =>
        exact statusMono_trans
          (statusMono_trans (statusMono_ensure_user db tg now)
            (statusMono_append_orders _ _))
          (statusMono_map_keepIdStatus _ _
            (fun o => by split <;> rfl) (fun o => by split <;> rfl))

theorem statusMono_step (cfg : Settings) (t : Trigger) (db : DB) :
    StatusMono db (step cfg t db) := by
  cases t with
  | webhook oid r =>
    show StatusMono db (yk_callback db oid r)
    unfold yk_callback
    cases hf : findOrder db oid with
    | none => exact statusMono_refl db
    | some o =>
      dsimp only
      by_cases hs : r = some "succeeded"
      · rw [if_pos hs]
        exact statusMono_setOrderStatus db o.id OStatus.paid (Or.inl rfl)
      · rw [if_neg hs]
        by_cases hc : r = some "canceled"
        · rw [if_pos hc]
          exact statusMono_setOrderStatus db o.id OStatus.canceled (Or.inr rfl)
        · rw [if_neg hc]; exact statusMono_refl db
  | check tg remote env => exact statusMono_cmd_check cfg remote env db tg
  | deeplink tg oid remote env => exact statusMono_deeplink cfg remote env db tg oid
  | auto tg oid envs =>
    show StatusMono db (auto_check_and_activate cfg tg oid envs db).1
    unfold auto_check_and_activate
    exact statusMono_autoCheckLoop cfg tg oid (envs.take 3) db
  | successRoute oid remote env => exact statusMono_yk_success cfg remote env db oid
  | mockPay oid => exact statusMono_mock db oid
  | planChoose tg code now payRes => exact statusMono_planChoose db tg code now payRes

theorem statusMono_steps (cfg : Settings) (ts : List Trigger) :
    ∀ db : DB, StatusMono db (steps cfg ts db) := by
  induction ts with
  | nil => intro db; exact statusMono_refl db
  | cons t ts ih =>
    intro db
    show StatusMono db (List.foldl (fun d t => step cfg t d) db (t :: ts))
    rw [List.foldl_cons]
    exact statusMono_trans (statusMono_step cfg t db) (ih (step cfg t db))

theorem statusOf_eq_of_orders_eq {db db' : DB} (h : db'.orders = db.orders)
    (oid : Nat) : statusOf db' oid = statusOf db oid := by
  unfold statusOf findOrder
  rw [h]

/-- **C2 (corrected, amended half).** Across every sequence of trigger
invocations — webhook callback, `/check`, deep-link, auto-check task, the
payment-success route, the mock-pay route and order creation — the status of an
existing order either stays what it was or is written to a terminal value
(PAID or CANCELED); consequently an order that has left PENDING (resp. NEW)
never returns to PENDING (resp. NEW), and in particular no sequence of inputs
produces a PAID→PENDING transition.  (The further assertion of the claim, that
at most one terminal status is ever reached, fails: see the counterexample,
where conflicting gateway reports drive PAID→CANCELED.) -/
theorem status_never_returns_to_pending_amended
    (cfg : Settings) (ts : List Trigger) (db : DB) (oid : Nat) (st : OStatus)
    (h : statusOf db oid = some st) :
    (statusOf (steps cfg ts db) oid = some st
      ∨ statusOf (steps cfg ts db) oid = some OStatus.paid
      ∨ statusOf (steps cfg ts db) oid = some OStatus.canceled)
    ∧ (st ≠ OStatus.pending → statusOf (steps cfg ts db) oid ≠ some OStatus.pending)
    ∧ (st ≠ OStatus.new → statusOf (steps cfg ts db) oid ≠ some OStatus.new) := by
  have hm := statusMono_steps cfg ts db oid st h
  refine ⟨hm, ?_, ?_⟩
  · intro hne hcon
    rcases hm with h' | h' | h'
    · exact hne (Option.some.inj (h'.symm.trans hcon))
    · exact OStatus.noConfusion (Option.some.inj (h'.symm.trans hcon))
    · exact OStatus.noConfusion (Option.some.inj (h'.symm.trans hcon))
  · intro hne hcon
    rcases hm with h' | h' | h'
    · exact hne (Option.some.inj (h'.symm.trans hcon))
    · exact OStatus.noConfusion (Option.some.inj (h'.symm.trans hcon))
    · exact OStatus.noConfusion (Option.some.inj (h'.symm.trans hcon))

/-- **C2 (counterexample).** A webhook invocation whose gateway verification
reports `succeeded` followed by one reporting `canceled` (the code re-queries
the gateway and applies the result unconditionally) drives order #1 from
PENDING to PAID and then from PAID to CANCELED: both terminal statuses are
reached and a PAID→CANCELED transition occurs, contradicting the claim that at
most one terminal status is ever reached and that status only moves along
NEW→PENDING→{PAID,CANCELED}. -/
theorem two_terminal_statuses_cex :
    statusOf (steps ⟨30, 1⟩ [Trigger.webhook 1 (some "succeeded")]
      ⟨[⟨1, 7, 0⟩], [⟨1, 1, 200, "RUB", OStatus.pending, some "m1|p1", none, 0⟩], []⟩) 1
      = some OStatus.paid
    ∧ statusOf (steps ⟨30, 1⟩
        [Trigger.webhook 1 (some "succeeded"), Trigger.webhook 1 (some "canceled")]
        ⟨[⟨1, 7, 0⟩], [⟨1, 1, 200, "RUB", OStatus.pending, some "m1|p1", none, 0⟩], []⟩) 1
      = some OStatus.canceled := by
  exact ⟨rfl, rfl⟩

/-- Witness discharging the hypotheses of the amended C2 theorem at a concrete
store and trigger sequence. -/
theorem status_never_returns_to_pending_amended_witness :
    statusOf (steps ⟨30, 1⟩ [Trigger.mockPay 1]
      ⟨[], [⟨1, 1, 200, "RUB", OStatus.paid, none, none, 0⟩], []⟩) 1
      ≠ some OStatus.pending :=
  (status_never_returns_to_pending_amended ⟨30, 1⟩ [Trigger.mockPay 1]
      ⟨[], [⟨1, 1, 200, "RUB", OStatus.paid, none, none, 0⟩], []⟩ 1 OStatus.paid
      rfl).2.1 (by simp)

/-- **C3 (corrected, amended).** The webhook refresh and
`_try_refresh_order_status` (used by the deep-link handler and the auto-check
task) each realize exactly the claimed transition function `refreshFn`
(`succeeded ↦ PAID`, `canceled ↦ CANCELED`, anything else unchanged); `/check`
realizes it only when the latest order is not already PAID — for an
already-PAID order `/check` performs no gateway query at all and leaves the
status PAID, whereas `refreshFn` maps a `canceled` report to CANCELED (see the
counterexample). -/
theorem refresh_transition_function_amended
    (cfg : Settings) (db : DB) (tg oid : Nat)
    (remote : String → Option String) (r : Option String) (env : Env) :
    (∀ o, findOrder db oid = some o →
      statusOf (yk_callback db oid r) oid = some (refreshFn o.status r))
    ∧ (∀ o pid, findOrder db oid = some o → pidOf o.externalId = some pid →
        statusOf (tryRefresh db oid remote).1 oid
          = some (refreshFn o.status (remote pid)))
    ∧ (∀ o pid, latestOrder db tg = some o → findOrder db o.id = some o →
        o.status ≠ OStatus.paid → pidOf o.externalId = some pid →
        statusOf (cmd_check cfg remote env db tg) o.id
          = some (refreshFn o.status (remote pid)))
    ∧ (∀ o, latestOrder db tg = some o → findOrder db o.id = some o →
        o.status = OStatus.paid →
        statusOf (cmd_check cfg remote env db tg) o.id = some OStatus.paid) := by
  refine ⟨?_, ?_, ?_, ?_⟩
  · intro o hf
    have hid : o.id = oid := by simpa using List.find?_some hf
    have hfo : findOrder db o.id = some o := by rw [hid]; exact hf
    unfold yk_callback
    simp only [hf]
    rw [← hid]
    by_cases hs : r = some "succeeded"
    · rw [if_pos hs, statusOf_setOrderStatus_self db o.id OStatus.paid o hfo]
      simp [refreshFn, hs]
    · rw [if_neg hs]
      by_cases hc : r = some "canceled"
      · rw [if_pos hc, statusOf_setOrderStatus_self db o.id OStatus.canceled o hfo]
        simp [refreshFn, hs, hc]
      · rw [if_neg hc]
        simp [statusOf, hfo, refreshFn, hs, hc]
  · intro o pid hf hp
    have hid : o.id = oid := by simpa using List.find?_some hf
    have hfo : findOrder db o.id = some o := by rw [hid]; exact hf
    unfold tryRefresh
    simp only [hf, hp]
    rw [← hid]
    by_cases hs : remote pid = some "succeeded"
    · rw [if_pos hs]
      by_cases hpaid : o.status = OStatus.paid
      · rw [if_pos hpaid]
        simp [statusOf, hfo, refreshFn, hs, hpaid]
      · rw [if_neg hpaid]
        show statusOf (setOrderStatus db o.id OStatus.paid) o.id = _
        rw [statusOf_setOrderStatus_self db o.id OStatus.paid o hfo]
        simp [refreshFn, hs]
    · rw [if_neg hs]
      by_cases hc : remote pid = some "canceled"
      · rw [if_pos hc]
        by_cases hcan : o.status = OStatus.canceled
        · rw [if_pos hcan]
          simp [statusOf, hfo, refreshFn, hs, hc, hcan]
        · rw [if_neg hcan]
          show statusOf (setOrderStatus db o.id OStatus.canceled) o.id = _
          rw [statusOf_setOrderStatus_self db o.id OStatus.canceled o hfo]
          simp [refreshFn, hs, hc]
      · rw [if_neg hc]
        simp [statusOf, hfo, refreshFn, hs, hc]
  · intro o pid hl hf hnp hp
    unfold cmd_check
    simp only [hl, hp]
    rw [if_neg hnp]
    by_cases hs : remote pid = some "succeeded"
    · rw [if_pos hs]
      rw [statusOf_eq_of_orders_eq (provision_orders cfg env _ tg o.externalId) o.id]
      rw [statusOf_setOrderStatus_self db o.id OStatus.paid o hf]
      simp [refreshFn, hs]
    · rw [if_neg hs]
      by_cases hc : remote pid = some "canceled"
      · rw [if_pos hc]
        rw [statusOf_setOrderStatus_self db o.id OStatus.canceled o hf]
        simp [refreshFn, hs, hc]
      · rw [if_neg hc]
        simp [statusOf, hf, refreshFn, hs, hc]
  · intro o hl hf hpaid
    unfold cmd_check
    simp only [hl]
    rw [if_pos hpaid]
    rw [statusOf_eq_of_orders_eq (provision_orders cfg env db tg o.externalId) o.id]
    simp [statusOf, hf, hpaid]

/-- **C3 (counterexample).** Order #1 becomes PAID through a webhook
verification reporting `succeeded`; a later `/check`, at a point where the
gateway reports the payment as `canceled`, leaves the order PAID (it never
queries the gateway for a PAID order), while the claimed uniform transition
function maps (PAID, canceled) to CANCELED — so `/check` does not apply the
claimed function. -/
theorem check_skips_refresh_on_paid_cex :
    statusOf
      (cmd_check ⟨30, 1⟩ (fun pid => if pid == "p1" then some "canceled" else none)
        ⟨2000, "u2", none⟩
        (yk_callback
          ⟨[⟨1, 7, 0⟩], [⟨1, 1, 200, "RUB", OStatus.pending, some "m1|p1", none, 0⟩], []⟩
          1 (some "succeeded"))
        7) 1 = some OStatus.paid
    ∧ refreshFn OStatus.paid (some "canceled") = OStatus.canceled := by
  exact ⟨rfl, rfl⟩

/-- Witness discharging the hypotheses of the amended C3 theorem: a PENDING
order with remote payment id `p1` and a gateway reporting `succeeded` is
refreshed to PAID by `_try_refresh_order_status`. -/
theorem refresh_transition_function_amended_witness :
    statusOf (tryRefresh
      ⟨[⟨1, 7, 0⟩], [⟨1, 1, 200, "RUB", OStatus.pending, some "m1|p1", none, 0⟩], []⟩
      1 (fun pid => if pid == "p1" then some "succeeded" else none)).1 1
      = some OStatus.paid :=
  (refresh_transition_function_amended ⟨30, 1⟩
      ⟨[⟨1, 7, 0⟩], [⟨1, 1, 200, "RUB", OStatus.pending, some "m1|p1", none, 0⟩], []⟩
      7 1 (fun pid => if pid == "p1" then some "succeeded" else none) none
      ⟨0, "u", none⟩).2.1
    ⟨1, 1, 200, "RUB", OStatus.pending, some "m1|p1", none, 0⟩ "p1" rfl rfl

theorem latestOrder_set_subs (db : DB) (l : List SubRow) (tg : Nat) :
    latestOrder { db with subs := l } tg = latestOrder db tg := rfl

/-- **C1 (corrected, amended).** `/check`, the deep-link handler — both of
which provision through the shared tail `provision` — and the background
auto-check task — which provisions through `autoProvision` — all perform the
10-minute idempotency guard: a first `/check` on a PAID latest order inserts
exactly one Subscription row and a second `/check` within 600 seconds is a
complete no-op — the status stays PAID and no second Subscription row is
created; and both provisioning tails, `provision` (fourth conjunct) and
`autoProvision` (fifth conjunct), are no-ops whenever the guard fires.  (The
payment-success HTTP route, by contrast, performs no guard — see the
counterexample, where two of its invocations within the window create two
Subscription rows.) -/
theorem check_guard_idempotent_amended
    (cfg : Settings) (db : DB) (tg : Nat)
    (remote remote2 : String → Option String) (e1 e2 : Env)
    (o : OrderRow) (u : UserRow)
    (hlatest : latestOrder db tg = some o)
    (hpaid : o.status = OStatus.paid)
    (hnoguard : hasRecentActiveSub db tg e1.now = false)
    (huser : findUserByTg db tg = some u)
    (hwin : e2.now ≤ e1.now + 600) :
    (cmd_check cfg remote e1 db tg).subs = db.subs ++
      [{ id := nextSubId db, userId := u.id, inboundId := cfg.inboundId,
         xrayUuid := e1.genUuid,
         expiresAt := e1.now + planDaysOf cfg.planDays o.externalId * 86400,
         isActive := true, createdAt := e1.now, configUrl := e1.cfgUrl }]
    ∧ (cmd_check cfg remote e1 db tg).orders = db.orders
    ∧ cmd_check cfg remote2 e2 (cmd_check cfg remote e1 db tg) tg
        = cmd_check cfg remote e1 db tg
    ∧ (∀ (db' : DB) (ext : Option String),
        hasRecentActiveSub db' tg e2.now = true →
        provision cfg e2 db' tg ext = db')
    ∧ (∀ (db' : DB) (e : PollEnv) (oid : Nat),
        hasRecentActiveSub db' tg e.now = true →
        autoProvision cfg e db' tg oid = db') := by
  have hdb1 : cmd_check cfg remote e1 db tg
      = { db with subs := db.subs ++
          [{ id := nextSubId db, userId := u.id, inboundId := cfg.inboundId,
             xrayUuid := e1.genUuid,
             expiresAt := e1.now + planDaysOf cfg.planDays o.externalId * 86400,
             isActive := true, createdAt := e1.now, configUrl := e1.cfgUrl }] } := by
    unfold cmd_check
    simp only [hlatest]
    rw [if_pos hpaid]
    unfold provision
    simp only [hnoguard, Bool.false_eq_true, if_false, huser]
  have hguardProv : ∀ (db' : DB) (ext : Option String),
      hasRecentActiveSub db' tg e2.now = true →
      provision cfg e2 db' tg ext = db' := by
    intro db' ext hg
    unfold provision
    simp only [hg, if_true]
  have huser' : db.users.find? (fun v => v.tgUserId == tg) = some u := huser
  have hu_mem : u ∈ db.users := List.mem_of_find?_eq_some huser'
  have hu_tg := List.find?_some huser'
  have hguard2 : hasRecentActiveSub
      { db with subs := db.subs ++
        [{ id := nextSubId db, userId := u.id, inboundId := cfg.inboundId,
           xrayUuid := e1.genUuid,
           expiresAt := e1.now + planDaysOf cfg.planDays o.externalId * 86400,
           isActive := true, createdAt := e1.now, configUrl := e1.cfgUrl }] }
      tg e2.now = true := by
    unfold hasRecentActiveSub
    rw [List.any_eq_true]
    refine ⟨_, List.mem_append_right db.subs (List.mem_singleton_self _), ?_⟩
    simp only [Bool.and_eq_true]
    refine ⟨⟨?_, ?_⟩, trivial⟩
    · rw [List.any_eq_true]
      exact ⟨u, hu_mem, by simp [hu_tg]⟩
    · simpa using hwin
  have hguardAuto : ∀ (db' : DB) (e : PollEnv) (oid : Nat),
      hasRecentActiveSub db' tg e.now = true →
      autoProvision cfg e db' tg oid = db' := by
    intro db' e oid hg
    unfold autoProvision
    split
    · rw [if_pos hg]
    · rfl
  refine ⟨by rw [hdb1], by rw [hdb1], ?_, hguardProv, hguardAuto⟩
  rw [hdb1]
  unfold cmd_check
  rw [latestOrder_set_subs]
  simp only [hlatest]
  rw [if_pos hpaid]
  exact hguardProv _ o.externalId hguard2

/-- **C1 (counterexample).** The payment-success HTTP route provisions with no
idempotency guard: two invocations for the same PAID order, the second 60
seconds after the first (well inside the 10-minute window, as the
`hasRecentActiveSub` conjunct shows), create two Subscription rows — the claim
says the second should have been skipped with no second Subscription. -/
theorem yk_success_double_provision_cex :
    ((yk_success ⟨30, 1⟩ (fun pid => if pid == "p1" then some "succeeded" else none)
        ⟨1060, "u2", none⟩
        (yk_success ⟨30, 1⟩ (fun pid => if pid == "p1" then some "succeeded" else none)
          ⟨1000, "u1", none⟩
          ⟨[⟨1, 7, 0⟩], [⟨1, 1, 200, "RUB", OStatus.pending, some "m1|p1", none, 0⟩], []⟩
          1)
        1).subs).length = 2
    ∧ hasRecentActiveSub
        (yk_success ⟨30, 1⟩ (fun pid => if pid == "p1" then some "succeeded" else none)
          ⟨1000, "u1", none⟩
          ⟨[⟨1, 7, 0⟩], [⟨1, 1, 200, "RUB", OStatus.pending, some "m1|p1", none, 0⟩], []⟩
          1) 7 1060 = true := by
  exact ⟨rfl, rfl⟩

/-- Witness discharging the hypotheses of the amended C1 theorem: a second
`/check` 500 seconds after the first one is a no-op. -/
theorem check_guard_idempotent_amended_witness :
    cmd_check ⟨30, 1⟩ (fun _ => none) ⟨1500, "u2", none⟩
      (cmd_check ⟨30, 1⟩ (fun _ => none) ⟨1000, "u1", none⟩
        ⟨[⟨1, 7, 0⟩], [⟨1, 1, 500, "RUB", OStatus.paid, some "m3|p1", none, 0⟩], []⟩ 7) 7
      = cmd_check ⟨30, 1⟩ (fun _ => none) ⟨1000, "u1", none⟩
        ⟨[⟨1, 7, 0⟩], [⟨1, 1, 500, "RUB", OStatus.paid, some "m3|p1", none, 0⟩], []⟩ 7 :=
  (check_guard_idempotent_amended ⟨30, 1⟩
      ⟨[⟨1, 7, 0⟩], [⟨1, 1, 500, "RUB", OStatus.paid, some "m3|p1", none, 0⟩], []⟩ 7
      (fun _ => none) (fun _ => none) ⟨1000, "u1", none⟩ ⟨1500, "u2", none⟩
      ⟨1, 1, 500, "RUB", OStatus.paid, some "m3|p1", none, 0⟩ ⟨1, 7, 0⟩
      rfl rfl rfl rfl (by decide)).2.2.1

theorem autoCheckLoop_count_le (cfg : Settings) (tg oid : Nat) :
    ∀ (envs : List PollEnv) (db : DB),
      (autoCheckLoop cfg tg oid envs db).2 ≤ envs.length := by
  intro envs
  induction envs with
  | nil => intro db; exact Nat.le_refl 0
  | cons e rest ih =>
    intro db
    unfold autoCheckLoop
    dsimp only
    cases h : (tryRefresh db oid e.remote).2 with
    | none => exact Nat.succ_le_succ (ih _)
    | some s =>
      cases s with
      | paid => exact Nat.succ_le_succ (Nat.zero_le _)
      | canceled => exact Nat.succ_le_succ (Nat.zero_le _)
      | new => exact Nat.succ_le_succ (ih _)
      | pending => exact Nat.succ_le_succ (ih _)
      | expired => exact Nat.succ_le_succ (ih _)

theorem autoCheckLoop_all_none (cfg : Settings) (tg oid : Nat) :
    ∀ (envs : List PollEnv) (db : DB),
      (∀ e ∈ envs, (tryRefresh db oid e.remote).2 = none) →
      autoCheckLoop cfg tg oid envs db = (db, envs.length) := by
  intro envs
  induction envs with
  | nil => intro db _; rfl
  | cons e rest ih =>
    intro db h
    have he : (tryRefresh db oid e.remote).2 = none := h e (List.mem_cons_self e rest)
    have he1 : (tryRefresh db oid e.remote).1 = db := tryRefresh_none db oid e.remote he
    unfold autoCheckLoop
    dsimp only
    rw [he, he1, ih db (fun e' he' => h e' (List.mem_cons_of_mem e he'))]
    rfl

/-- **C6 (confirmed).** The background auto-check task (`for attempt in
range(3)`, a 180-second sleep before each poll) performs at most three
status-poll attempts, whatever inputs the outside world supplies; and when
every one of its (at most three) refresh attempts is inconclusive — neither
`succeeded` nor `canceled` — it terminates silently after exactly the polls the
loop allows, leaving the store (in particular the `subscriptions` table)
completely unchanged: no Subscription is created and no further attempt
occurs. -/
theorem auto_check_three_attempts
    (cfg : Settings) (tg oid : Nat) (envs : List PollEnv) (db : DB) :
    (auto_check_and_activate cfg tg oid envs db).2 ≤ 3
    ∧ ((∀ e ∈ envs.take 3, (tryRefresh db oid e.remote).2 = none) →
        auto_check_and_activate cfg tg oid envs db = (db, (envs.take 3).length)) := by
  constructor
  · calc (auto_check_and_activate cfg tg oid envs db).2
        ≤ (envs.take 3).length := autoCheckLoop_count_le cfg tg oid (envs.take 3) db
      _ ≤ 3 := by simp [List.length_take]
  · intro h
    exact autoCheckLoop_all_none cfg tg oid (envs.take 3) db h

/-- Witness discharging the hypotheses of the C6 theorem: three polls all
reporting `waiting_for_capture` leave the store untouched and stop at three
attempts. -/
theorem auto_check_three_attempts_witness :
    auto_check_and_activate ⟨30, 1⟩ 7 1
      [⟨fun _ => some "waiting_for_capture", 1000, "a", none⟩,
       ⟨fun _ => some "waiting_for_capture", 1200, "b", none⟩,
       ⟨fun _ => some "waiting_for_capture", 1400, "c", none⟩]
      ⟨[⟨1, 7, 0⟩], [⟨1, 1, 200, "RUB", OStatus.pending, some "m1|p1", none, 0⟩], []⟩
      = (⟨[⟨1, 7, 0⟩], [⟨1, 1, 200, "RUB", OStatus.pending, some "m1|p1", none, 0⟩], []⟩, 3) :=
  (auto_check_three_attempts ⟨30, 1⟩ 7 1
      [⟨fun _ => some "waiting_for_capture", 1000, "a", none⟩,
       ⟨fun _ => some "waiting_for_capture", 1200, "b", none⟩,
       ⟨fun _ => some "waiting_for_capture", 1400, "c", none⟩]
      ⟨[⟨1, 7, 0⟩], [⟨1, 1, 200, "RUB", OStatus.pending, some "m1|p1", none, 0⟩], []⟩).2
    (by
      intro e he
      simp only [List.take, List.mem_cons, List.not_mem_nil, or_false] at he
      rcases he with rfl | rfl | rfl <;> rfl)

/-- **C7 (confirmed).** When the gateway reports `succeeded` for the user's
latest order whose external reference carries plan code `m3` (90 days), and
the idempotency guard does not fire, `/check` provisions exactly one
Subscription row whose `expires_at` is the provisioning clock plus 90 days
(both `expires_at` and `created_at` stem from the same invocation's
`datetime.utcnow()` readings). -/
theorem provision_m3_ninety_days
    (cfg : Settings) (db : DB) (tg : Nat) (remote : String → Option String)
    (env : Env) (o : OrderRow) (u : UserRow) (e pid : String)
    (hlatest : latestOrder db tg = some o)
    (hstatus : o.status = OStatus.pending)
    (hext : o.externalId = some e)
    (hcode : planCodeOf e = "m3")
    (hpid : pidOf o.externalId = some pid)
    (hremote : remote pid = some "succeeded")
    (hnoguard : hasRecentActiveSub db tg env.now = false)
    (huser : findUserByTg db tg = some u) :
    (cmd_check cfg remote env db tg).subs = db.subs ++
      [{ id := nextSubId db, userId := u.id, inboundId := cfg.inboundId,
         xrayUuid := env.genUuid, expiresAt := env.now + 90 * 86400,
         isActive := true, createdAt := env.now, configUrl := env.cfgUrl }] := by
  have h90 : planDaysOf cfg.planDays o.externalId = 90 := by
    rw [hext]
    show (match get_plan_by_code (planCodeOf e) with
          | some p => p.days
          | none => cfg.planDays) = 90
    rw [hcode]
    rfl
  unfold cmd_check
  simp only [hlatest, hpid]
  rw [if_neg (by rw [hstatus]; exact fun hcon => OStatus.noConfusion hcon)]
  rw [if_pos hremote]
  unfold provision
  have hg : hasRecentActiveSub (setOrderStatus db o.id OStatus.paid) tg env.now
      = hasRecentActiveSub db tg env.now := rfl
  have hu : findUserByTg (setOrderStatus db o.id OStatus.paid) tg
      = findUserByTg db tg := rfl
  simp only [hg, hnoguard, Bool.false_eq_true, if_false, hu, huser]
  have hsubs : (setOrderStatus db o.id OStatus.paid).subs = db.subs := rfl
  have hnext : nextSubId (setOrderStatus db o.id OStatus.paid) = nextSubId db := rfl
  simp only [hsubs, hnext, h90]

/-- Witness discharging the hypotheses of the C7 theorem: order #1 with
external reference `"m3|p42"`, gateway `succeeded`, a 90-day subscription. -/
theorem provision_m3_ninety_days_witness :
    (cmd_check ⟨30, 1⟩ (fun pid => if pid == "p42" then some "succeeded" else none)
        ⟨5000, "uu", none⟩
        ⟨[⟨1, 7, 0⟩], [⟨1, 1, 500, "RUB", OStatus.pending, some "m3|p42", none, 0⟩], []⟩
        7).subs
      = [{ id := 1, userId := 1, inboundId := 1, xrayUuid := "uu",
           expiresAt := 5000 + 90 * 86400, isActive := true, createdAt := 5000,
           configUrl := none }] :=
  provision_m3_ninety_days ⟨30, 1⟩
    ⟨[⟨1, 7, 0⟩], [⟨1, 1, 500, "RUB", OStatus.pending, some "m3|p42", none, 0⟩], []⟩
    7 (fun pid => if pid == "p42" then some "succeeded" else none) ⟨5000, "uu", none⟩
    ⟨1, 1, 500, "RUB", OStatus.pending, some "m3|p42", none, 0⟩ ⟨1, 7, 0⟩
    "m3|p42" "p42" rfl rfl rfl rfl rfl rfl rfl rfl

theorem mem_setStatusList_of_ne {o : OrderRow} {l : List OrderRow} (hm : o ∈ l)
    (k : Nat) (st : OStatus) (hne : o.id ≠ k) : o ∈ setStatusList l k st := by
  unfold setStatusList
  have h2 := List.mem_map_of_mem
    (fun x => if x.id == k then { x with status := st } else x) hm
  simpa [hne] using h2

theorem cmd_check_orders_cases (cfg : Settings) (remote : String → Option String)
    (env : Env) (db : DB) (tg : Nat) (sel : OrderRow)
    (hl : latestOrder db tg = some sel) :
    (cmd_check cfg remote env db tg).orders = db.orders
    ∨ ∃ st, (cmd_check cfg remote env db tg).orders
        = setStatusList db.orders sel.id st := by
  unfold cmd_check
  simp only [hl]
  split
  · left; exact provision_orders cfg env db tg sel.externalId
  · split
    · left; rfl
    · split
      · right
        exact ⟨OStatus.paid, by
          rw [provision_orders cfg env _ tg sel.externalId]; rfl⟩
      · split
        · right; exact ⟨OStatus.canceled, rfl⟩
        · left; rfl

/-- **C10 (confirmed).** `/check` inspects only the user's single most recent
order: when the user has no order, the store is untouched; when the query
returns an order, it is one of the user's orders and carries the greatest id
among them, and every other order row — any row with a different id — is still
present, unchanged, after the call, whatever the gateway reports. -/
theorem check_latest_order_only (cfg : Settings) (remote : String → Option String)
    (env : Env) (db : DB) (tg : Nat) :
    (latestOrder db tg = none → cmd_check cfg remote env db tg = db)
    ∧ (∀ sel, latestOrder db tg = some sel →
        sel ∈ db.orders ∧ ownedBy db tg sel = true
        ∧ (∀ o ∈ db.orders, ownedBy db tg o = true → o.id ≤ sel.id)
        ∧ (∀ o ∈ db.orders, o.id ≠ sel.id →
            o ∈ (cmd_check cfg remote env db tg).orders)) := by
  constructor
  · intro h
    unfold cmd_check
    simp only [h]
  · intro sel hsel
    have hmem : sel ∈ (db.orders.filter
        (fun o => db.users.any (fun u => u.id == o.userId && u.tgUserId == tg))) :=
      List.argmax_mem ((Option.mem_def).mpr hsel)
    have hmem' := List.mem_filter.mp hmem
    refine ⟨hmem'.1, hmem'.2, ?_, ?_⟩
    · intro o ho hown
      exact List.le_of_mem_argmax
        (List.mem_filter.mpr ⟨ho, hown⟩) ((Option.mem_def).mpr hsel)
    · intro o ho hne
      rcases cmd_check_orders_cases cfg remote env db tg sel hsel with hcase | ⟨st, hcase⟩
      · rw [hcase]; exact ho
      · rw [hcase]; exact mem_setStatusList_of_ne ho sel.id st hne

/-- Witness discharging the hypotheses of the C10 theorem: with two orders the
older order #1 survives a `/check` untouched, and the selected order is #2. -/
theorem check_latest_order_only_witness :
    (⟨1, 1, 200, "RUB", OStatus.pending, some "m1|p1", none, 0⟩ : OrderRow)
      ∈ (cmd_check ⟨30, 1⟩ (fun _ => some "waiting") ⟨1000, "u", none⟩
          ⟨[⟨1, 7, 0⟩],
           [⟨1, 1, 200, "RUB", OStatus.pending, some "m1|p1", none, 0⟩,
            ⟨2, 1, 500, "RUB", OStatus.pending, some "m3|p2", none, 10⟩],
           []⟩ 7).orders :=
  ((check_latest_order_only ⟨30, 1⟩ (fun _ => some "waiting") ⟨1000, "u", none⟩
      ⟨[⟨1, 7, 0⟩],
       [⟨1, 1, 200, "RUB", OStatus.pending, some "m1|p1", none, 0⟩,
        ⟨2, 1, 500, "RUB", OStatus.pending, some "m3|p2", none, 10⟩],
       []⟩ 7).2
    ⟨2, 1, 500, "RUB", OStatus.pending, some "m3|p2", none, 10⟩ rfl).2.2.2
    ⟨1, 1, 200, "RUB", OStatus.pending, some "m1|p1", none, 0⟩
    (by simp) (by decide)

theorem getD_find?_tg (l : List UserRow) (fresh : UserRow) (tg : Nat)
    (hfresh : fresh.tgUserId = tg) :
    ((l.find? (fun u => u.tgUserId == tg)).getD fresh).tgUserId = tg := by
  cases hf : l.find? (fun u => u.tgUserId == tg) with
  | none => simpa [Option.getD] using hfresh
  | some u => simpa [Option.getD] using List.find?_some hf

theorem countTg_ensure_user (db : DB) (tg now : Nat) :
    countTg (ensure_user db tg now).1 tg = max (countTg db tg) 1 := by
  unfold ensure_user
  cases hf : db.users.find? (fun u => u.tgUserId == tg) with
  | some u =>
    dsimp only
    have hpos : 0 < countTg db tg := by
      unfold countTg
      rw [List.countP_pos_iff]
      have hp := List.find?_some hf
      exact ⟨u, List.mem_of_find?_eq_some hf, hp⟩
    exact (Nat.max_eq_left hpos).symm
  | none =>
    dsimp only
    have hzero : countTg db tg = 0 := by
      unfold countTg
      rw [List.countP_eq_zero]
      exact fun u hu => List.find?_eq_none.mp hf u hu
    have hany : db.users.any (fun u => u.tgUserId == tg) = false := by
      rw [← Bool.not_eq_true, List.any_eq_true]
      rintro ⟨u, hu, hp⟩
      exact List.find?_eq_none.mp hf u hu hp
    simp only [hany, Bool.false_eq_true, if_false]
    unfold countTg at hzero ⊢
    rw [List.countP_append, hzero]
    simp [List.countP_cons]

theorem ensure_user_snd_tg (db : DB) (tg now : Nat) :
    ((ensure_user db tg now).2).tgUserId = tg := by
  unfold ensure_user
  cases hf : db.users.find? (fun u => u.tgUserId == tg) with
  | some u =>
    dsimp only
    simpa using List.find?_some hf
  | none =>
    dsimp only
    exact getD_find?_tg _ _ tg rfl

theorem countTg_ensureUserIter (tg now : Nat) :
    ∀ (k : Nat) (db : DB), 1 ≤ k →
      countTg (ensureUserIter tg now k db) tg = max (countTg db tg) 1 := by
  intro k
  induction k with
  | zero => intro db h; omega
  | succ k ih =>
    intro db _
    show countTg (ensureUserIter tg now k (ensure_user db tg now).1) tg = _
    by_cases hk : k = 0
    · subst hk
      show countTg (ensure_user db tg now).1 tg = _
      exact countTg_ensure_user db tg now
    · rw [ih (ensure_user db tg now).1 (Nat.one_le_iff_ne_zero.mpr hk)]
      rw [countTg_ensure_user db tg now]
      omega

/-- **C9 (confirmed).** `ensure_user` is idempotent: one call makes the number
of `users` rows carrying the chat id exactly `max(previous, 1)` — so a row is
created only when none exists, the `INSERT OR IGNORE` and the unique
constraint on `tg_user_id` absorbing races — the returned row always carries
the requested chat id, and any positive number of repeated calls leaves
exactly `max(previous, 1)` rows: at most one row is ever created per chat
id. -/
theorem ensure_user_idempotent (db : DB) (tg now : Nat) :
    countTg (ensure_user db tg now).1 tg = max (countTg db tg) 1
    ∧ ((ensure_user db tg now).2).tgUserId = tg
    ∧ (∀ k, 1 ≤ k →
        countTg (ensureUserIter tg now k db) tg = max (countTg db tg) 1) :=
  ⟨countTg_ensure_user db tg now, ensure_user_snd_tg db tg now,
   fun k hk => countTg_ensureUserIter tg now k db hk⟩

/-- Witness discharging the hypotheses of the C9 theorem: five repeated calls
for a new chat id create exactly one row. -/
theorem ensure_user_idempotent_witness :
    countTg (ensureUserIter 9 50 5 ⟨[⟨1, 7, 0⟩], [], []⟩) 9
      = max (countTg ⟨[⟨1, 7, 0⟩], [], []⟩ 9) 1 :=
  (ensure_user_idempotent ⟨[⟨1, 7, 0⟩], [], []⟩ 9 50).2.2 5 (by decide)

theorem attemptOutcome_not200 (respond : Req → HttpOutcome) (ep pn : String)
    (h : ∀ q : Req, outcomeStatus (respond q) ≠ some 200) :
    attemptOutcome respond ep pn = none := by
  unfold attemptOutcome
  cases hq : respond ⟨ep, pn, Enc.jsonBody⟩ with
  | exn => rfl
  | ok r0 =>
    have h200 : r0.status ≠ 200 := by
      have hh := h ⟨ep, pn, Enc.jsonBody⟩
      rw [hq] at hh
      simpa [outcomeStatus] using hh
    have hb : (r0.status == 200) = false := by simpa using h200
    have hr : retriedResp respond ep pn r0 = r0 := by
      unfold retriedResp
      simp [hb]
    simp [hr, hb]

theorem runAttempts_all_none (respond : Req → HttpOutcome)
    (l : List (String × String))
    (h : ∀ a ∈ l, attemptOutcome respond a.1 a.2 = none) :
    runAttempts respond l = (none, l.length) := by
  induction l with
  | nil => rfl
  | cons a rest ih =>
    unfold runAttempts
    rw [h a (List.mem_cons_self a rest)]
    rw [ih (fun b hb => h b (List.mem_cons_of_mem a hb))]
    rfl

theorem runAttempts_first_success (respond : Req → HttpOutcome)
    (pre : List (String × String)) (post : List (String × String))
    (a : String × String) (cfg : Option String)
    (hpre : ∀ b ∈ pre, attemptOutcome respond b.1 b.2 = none)
    (hsucc : attemptOutcome respond a.1 a.2 = some cfg) :
    runAttempts respond (pre ++ a :: post) = (some cfg, pre.length + 1) := by
  induction pre with
  | nil =>
    show runAttempts respond (a :: post) = (some cfg, 1)
    unfold runAttempts
    rw [hsucc]
  | cons b pre ih =>
    show runAttempts respond (b :: (pre ++ a :: post)) = (some cfg, pre.length + 1 + 1)
    unfold runAttempts
    rw [hpre b (List.mem_cons_self b pre)]
    rw [ih (fun c hc => hpre c (List.mem_cons_of_mem b hc))]

/-- **C5 (confirmed).** When every request fails — every response has a status
other than HTTP 200, e.g. HTTP 500 everywhere, or raises — `add_client`
completes normally (the embedding is a total function: every exception is
caught in the source and turns into a failed attempt) and returns a result
carrying the locally generated client UUID and no config URL. -/
theorem add_client_all_fail_returns_uuid
    (respond : Req → HttpOutcome) (basePath genUuid email : String)
    (h : ∀ q : Req, outcomeStatus (respond q) ≠ some 200) :
    (add_client respond basePath genUuid email).1
      = { uuid := genUuid, note := email, config_url := none } := by
  unfold add_client
  rw [runAttempts_all_none respond (addClientAttempts basePath)
    (fun a _ => attemptOutcome_not200 respond a.1 a.2 h)]

/-- Witness discharging the hypothesis of the C5 theorem: a panel answering
HTTP 500 to every request. -/
theorem add_client_all_fail_returns_uuid_witness :
    (add_client (fun _ => HttpOutcome.ok ⟨500, "", none⟩) "" "u-1" "note-1").1
      = { uuid := "u-1", note := "note-1", config_url := none } :=
  add_client_all_fail_returns_uuid (fun _ => HttpOutcome.ok ⟨500, "", none⟩)
    "" "u-1" "note-1" (fun _ => by simp [outcomeStatus])

/-- **C4 (corrected, amended).** `add_client` stops at the first
endpoint/payload attempt whose (possibly retried) response is HTTP 200 with a
JSON body recognized as success — `success` or `ok` true, a `status` field
stringifying to "success"/"ok", or `code == 0` — returning the generated UUID,
the note, and any link extracted from that body.  An HTTP 200 response with an
EMPTY body is not success: it triggers the form-encoded retry and, when that
yields nothing better, the attempt is counted failed and the loop continues
(second conjunct). -/
theorem add_client_first_marker_success_amended
    (respond : Req → HttpOutcome) (basePath genUuid email : String)
    (pre post : List (String × String)) (a : String × String) (cfg : Option String)
    (hsplit : addClientAttempts basePath = pre ++ a :: post)
    (hpre : ∀ b ∈ pre, attemptOutcome respond b.1 b.2 = none)
    (hsucc : attemptOutcome respond a.1 a.2 = some cfg) :
    add_client respond basePath genUuid email
      = ({ uuid := genUuid, note := email, config_url := cfg }, pre.length + 1)
    ∧ (∀ ep pn : String,
        attemptOutcome (fun _ => HttpOutcome.ok ⟨200, "", none⟩) ep pn = none) := by
  constructor
  · unfold add_client
    rw [hsplit, runAttempts_first_success respond pre post a cfg hpre hsucc]
  · intro ep pn
    rfl

/-- **C4 (counterexample).** Against an endpoint answering HTTP 200 with an
empty body to every request, `add_client` does NOT treat the first attempt as
success and stop there: the very first attempt is classified a failure, all 12
endpoint × payload attempts are tried, and the result carries no config URL —
the claim says the call stops at the first such attempt and treats it as
success. -/
theorem add_client_empty_body_not_success_cex :
    attemptOutcome (fun _ => HttpOutcome.ok ⟨200, "", none⟩)
        "/panel/api/inbounds/addClient" "v1" = none
    ∧ (add_client (fun _ => HttpOutcome.ok ⟨200, "", none⟩) "" "u" "n").2 = 12
    ∧ ¬ (add_client (fun _ => HttpOutcome.ok ⟨200, "", none⟩) "" "u" "n").2 = 1
    ∧ (add_client (fun _ => HttpOutcome.ok ⟨200, "", none⟩) "" "u" "n").1.config_url
        = none := by
  exact ⟨rfl, rfl, by decide, rfl⟩

/-- Witness discharging the hypotheses of the amended C4 theorem: a panel
whose first candidate endpoint answers `{"success": true}` makes `add_client`
succeed on attempt one. -/
theorem add_client_first_marker_success_amended_witness :
    add_client
        (fun _ => HttpOutcome.ok ⟨200, "ok", some (Json.obj [("success", Json.bool true)])⟩)
        "" "u-w" "note-w"
      = ({ uuid := "u-w", note := "note-w", config_url := none }, 1) :=
  (add_client_first_marker_success_amended
      (fun _ => HttpOutcome.ok ⟨200, "ok", some (Json.obj [("success", Json.bool true)])⟩)
      "" "u-w" "note-w" []
      (List.drop 1 (addClientAttempts ""))
      ("/panel/api/inbounds/addClient", "v1") none
      rfl (fun b hb => absurd hb (List.not_mem_nil b)) rfl).1

/-- **C8 (confirmed).** `sanitize_config_link` strips from a link's fragment
the trailing suffix starting at the first hyphen that is followed by a digit,
keeping everything before it: concretely, the fragment
`tg-user-100.00GB-29D,extra` comes out as `tg-user`; and in general, for any
decoded fragment `a` containing no hyphen-followed-by-digit, the cut of
`a ++ "-" ++ digit ++ anything` is exactly `a`. -/
theorem sanitize_fragment_strip :
    sanitize_config_link "vless://abc@host:443?type=ws#tg-user-100.00GB-29D,extra"
      = "vless://abc@host:443?type=ws#tg-user"
    ∧ (∀ (a b : List Char) (d : Char), d.isDigit = true →
        hasHyphenDigit a = false → stripTail (a ++ '-' :: d :: b) = a) := by
  constructor
  · rfl
  · intro a b d hd ha
    induction a with
    | nil =>
      show stripTail ('-' :: d :: b) = []
      unfold stripTail
      rw [if_pos]
      show ('-' == '-' && headIsDigit (d :: b)) = true
      simp [headIsDigit, hd]
    | cons c a ih =>
      have hsplit := ha
      unfold hasHyphenDigit at hsplit
      rw [Bool.or_eq_false_iff] at hsplit
      have hnc : (c == '-' && headIsDigit a) = false := hsplit.1
      have ha' : hasHyphenDigit a = false := hsplit.2
      show stripTail (c :: (a ++ '-' :: d :: b)) = c :: a
      unfold stripTail
      cases a with
      | nil =>
        simp only [List.nil_append]
        rw [if_neg]
        · show c :: stripTail ('-' :: d :: b) = [c]
          unfold stripTail
          rw [if_pos]
          show ('-' == '-' && headIsDigit (d :: b)) = true
          simp [headIsDigit, hd]
        · show ¬ (c == '-' && headIsDigit ('-' :: d :: b)) = true
          simp [headIsDigit]
      | cons a0 arest =>
        rw [if_neg]
        · rw [ih ha']
        · show ¬ (c == '-' && headIsDigit ((a0 :: arest) ++ '-' :: d :: b)) = true
          have : headIsDigit ((a0 :: arest) ++ '-' :: d :: b) = headIsDigit (a0 :: arest) := rfl
          rw [this]
          simp only [Bool.and_eq_false_iff] at hnc
          rcases hnc with hnc | hnc <;> simp [hnc]

/-- Witness discharging the hypotheses of the C8 theorem at the concrete
fragment head `tg`. -/
theorem sanitize_fragment_strip_witness :
    stripTail (['t', 'g'] ++ '-' :: '1' :: ['x']) = ['t', 'g'] :=
  sanitize_fragment_strip.2 ['t', 'g'] ['x'] '1' rfl rfl
